import Mathlib

/-!
# Verification of the jsonplaceholder component (src/src/lib.rs)

Shallow embedding of the Rust WASI HTTP component. The embedding models:

* the JSON value space and the `serde_json` / `serde_derive` decoding
  semantics used by the component (field-map decoding that errors on a
  missing, mistyped or duplicated recognized field and silently skips
  unrecognized keys; `Vec<T>` decoding that is element-wise, order
  preserving and fails the whole vector on the first failing element);
* the wire structs (`PostSerde`, `UserSerde`, ...) and the `From` impls
  mapping them to the domain records exported through the WIT interface;
* `fetch_json`: request construction, the blocking exchange against a
  host transport (modelled as an oracle `FetchEnv` chosen per path), the
  status-200 check, the chunked body-drain loop, and the final decode;
* the fourteen endpoint functions with their inline query-string builders.

Machine integers (`u64`) are modelled as `Nat` with explicit range checks
where the source checks them (JSON-number decoding); bytes of the HTTP body
are modelled as `Char` (ASCII payloads).
-/

set_option autoImplicit false

namespace Jsonplaceholder

/-! ## JSON values

Model of the `serde_json` value space as far as this component consumes it
(the upstream payloads contain no fractional or negative numbers; the wire
schemas of this component only decode unsigned integers, strings, booleans,
arrays and objects). -/

inductive Json where
  | null : Json
  | bool (b : Bool) : Json
  | num (n : Nat) : Json
  | str (s : String) : Json
  | arr (elems : List Json) : Json
  | obj (fields : List (String × Json)) : Json

/-! ## Domain records

The records exported through the WIT interface
(`exports::jsonplaceholder::api::jsonplaceholder_api`). -/

structure Geo where
  lat : String
  lng : String
  deriving DecidableEq, Repr

structure Address where
  street : String
  suite : String
  city : String
  zipcode : String
  geo : Geo
  deriving DecidableEq, Repr

structure Company where
  name : String
  catch_phrase : String
  bs : String
  deriving DecidableEq, Repr

structure Post where
  id : Nat
  user_id : Nat
  title : String
  body : String
  deriving DecidableEq, Repr

structure User where
  id : Nat
  name : String
  username : String
  email : String
  phone : String
  website : String
  company : Company
  address : Address
  deriving DecidableEq, Repr

structure Comment where
  id : Nat
  post_id : Nat
  name : String
  email : String
  body : String
  deriving DecidableEq, Repr

structure Album where
  id : Nat
  user_id : Nat
  title : String
  deriving DecidableEq, Repr

structure Photo where
  id : Nat
  album_id : Nat
  title : String
  url : String
  thumbnail_url : String
  deriving DecidableEq, Repr

structure Todo where
  id : Nat
  user_id : Nat
  title : String
  completed : Bool
  deriving DecidableEq, Repr

structure NotFoundError where
  message : String
  deriving DecidableEq, Repr

/-! ## Wire (serde) structs

The `#[derive(Deserialize)]` structs of the source. Field names follow the
Rust struct fields; the `#[serde(rename = "...")]` attributes appear in the
decoders below as the recognized JSON keys. -/

structure GeoSerde where
  lat : String
  lng : String
  deriving DecidableEq, Repr

structure AddressSerde where
  street : String
  suite : String
  city : String
  zipcode : String
  geo : GeoSerde
  deriving DecidableEq, Repr

structure CompanySerde where
  name : String
  catch_phrase : String
  bs : String
  deriving DecidableEq, Repr

structure PostSerde where
  id : Nat
  user_id : Nat
  title : String
  body : String
  deriving DecidableEq, Repr

structure UserSerde where
  id : Nat
  name : String
  username : String
  email : String
  phone : String
  website : String
  company : CompanySerde
  address : AddressSerde
  deriving DecidableEq, Repr

structure CommentSerde where
  id : Nat
  post_id : Nat
  name : String
  email : String
  body : String
  deriving DecidableEq, Repr

structure AlbumSerde where
  id : Nat
  user_id : Nat
  title : String
  deriving DecidableEq, Repr

structure PhotoSerde where
  id : Nat
  album_id : Nat
  title : String
  url : String
  thumbnail_url : String
  deriving DecidableEq, Repr

structure TodoSerde where
  id : Nat
  user_id : Nat
  title : String
  completed : Bool
  deriving DecidableEq, Repr

/-! ## Domain mappers: the `From<XSerde> for X` impls -/

/-- `impl From<GeoSerde> for Geo` (lib.rs lines 92-99). -/
def Geo.fromSerde (g : GeoSerde) : Geo :=
  { lat := g.lat, lng := g.lng }

/-- `impl From<AddressSerde> for Address` (lib.rs lines 110-120). -/
def Address.fromSerde (a : AddressSerde) : Address :=
  { street := a.street, suite := a.suite, city := a.city,
    zipcode := a.zipcode, geo := Geo.fromSerde a.geo }

/-- `impl From<CompanySerde> for Company` (lib.rs lines 130-138). -/
def Company.fromSerde (c : CompanySerde) : Company :=
  { name := c.name, catch_phrase := c.catch_phrase, bs := c.bs }

/-- `impl From<PostSerde> for Post` (lib.rs lines 149-158). -/
def Post.fromSerde (p : PostSerde) : Post :=
  { id := p.id, user_id := p.user_id, title := p.title, body := p.body }

/-- `impl From<UserSerde> for User` (lib.rs lines 172-185). -/
def User.fromSerde (u : UserSerde) : User :=
  { username := u.username, id := u.id, name := u.name, email := u.email,
    phone := u.phone, website := u.website,
    company := Company.fromSerde u.company,
    address := Address.fromSerde u.address }

/-- `impl From<CommentSerde> for Comment` (lib.rs lines 197-207). -/
def Comment.fromSerde (c : CommentSerde) : Comment :=
  { id := c.id, post_id := c.post_id, name := c.name,
    email := c.email, body := c.body }

/-- `impl From<AlbumSerde> for Album` (lib.rs lines 217-225). -/
def Album.fromSerde (a : AlbumSerde) : Album :=
  { id := a.id, user_id := a.user_id, title := a.title }

/-- `impl From<PhotoSerde> for Photo` (lib.rs lines 238-248). -/
def Photo.fromSerde (p : PhotoSerde) : Photo :=
  { id := p.id, album_id := p.album_id, thumbnail_url := p.thumbnail_url,
    title := p.title, url := p.url }

/-- `impl From<TodoSerde> for Todo` (lib.rs lines 259-268). -/
def Todo.fromSerde (t : TodoSerde) : Todo :=
  { id := t.id, user_id := t.user_id, title := t.title,
    completed := t.completed }

/-! ## serde decoding semantics

Modelled from the behaviour of `serde_json` + `#[derive(Deserialize)]` as the
source instantiates them. A derived struct deserializer consumes a JSON map:
each recognized key stores its field value (a second occurrence of a
recognized key is a `duplicate field` error, a mistyped value is an error),
unrecognized keys are skipped (none of the structs opt into
`deny_unknown_fields`), and at the end any recognized field still unset is a
`missing field` error. A `u64` field accepts exactly non-negative integers
below `2 ^ 64`. -/

/-- JSON-number to `u64` (serde rejects anything that is not an unsigned
integer in range). Numbers are modelled as `Nat`, so only the upper bound is
checked. -/
def decodeU64 : Json → Option Nat
  | .num n => if n < 2 ^ 64 then some n else none
  | _ => none

/-- JSON value to `String` field. -/
def decodeStr : Json → Option String
  | .str s => some s
  | _ => none

/-- JSON value to `bool` field. -/
def decodeBool : Json → Option Bool
  | .bool b => some b
  | _ => none

/-- One recognized field of a derived struct deserializer: the JSON key it
matches and the action on the partial accumulator when the key occurs. -/
structure FieldDecoder (σ : Type) where
  key : String
  upd : σ → Json → Option σ

/-- Store a required field occurrence: error on duplicate, decode the value,
record it. -/
def setOnce {α : Type} (dec : Json → Option α) (slot : Option α) (v : Json) :
    Option (Option α) :=
  match slot with
  | some _ => none
  | none => (dec v).map some

/-- Process one key/value pair of the JSON map: a recognized key runs its
field action, an unrecognized key is skipped. -/
def applyField {σ : Type} (specs : List (FieldDecoder σ)) (s : σ) (k : String)
    (v : Json) : Option σ :=
  match specs.find? (fun d => d.key == k) with
  | some d => d.upd s v
  | none => some s

/-- Fold the field actions over the JSON map in order. -/
def decodeFields {σ : Type} (specs : List (FieldDecoder σ)) :
    List (String × Json) → σ → Option σ
  | [], s => some s
  | (k, v) :: rest, s => (applyField specs s k v).bind (decodeFields specs rest)

/-! ### Per-entity accumulators and decoders -/

structure GeoAcc where
  lat : Option String := none
  lng : Option String := none

def geoFields : List (FieldDecoder GeoAcc) :=
  [ ⟨"lat", fun s v => (setOnce decodeStr s.lat v).map fun x => { s with lat := x }⟩,
    ⟨"lng", fun s v => (setOnce decodeStr s.lng v).map fun x => { s with lng := x }⟩ ]

/-- Derived deserializer of `GeoSerde` (lib.rs 86-90). -/
def GeoSerde.decode : Json → Option GeoSerde
  | .obj fs =>
    (decodeFields geoFields fs {}).bind fun s =>
      match s.lat, s.lng with
      | some lat, some lng => some ⟨lat, lng⟩
      | _, _ => none
  | _ => none

structure AddressAcc where
  street : Option String := none
  suite : Option String := none
  city : Option String := none
  zipcode : Option String := none
  geo : Option GeoSerde := none

def addressFields : List (FieldDecoder AddressAcc) :=
  [ ⟨"street", fun s v => (setOnce decodeStr s.street v).map fun x => { s with street := x }⟩,
    ⟨"suite", fun s v => (setOnce decodeStr s.suite v).map fun x => { s with suite := x }⟩,
    ⟨"city", fun s v => (setOnce decodeStr s.city v).map fun x => { s with city := x }⟩,
    ⟨"zipcode", fun s v => (setOnce decodeStr s.zipcode v).map fun x => { s with zipcode := x }⟩,
    ⟨"geo", fun s v => (setOnce GeoSerde.decode s.geo v).map fun x => { s with geo := x }⟩ ]

/-- Derived deserializer of `AddressSerde` (lib.rs 101-108). -/
def AddressSerde.decode : Json → Option AddressSerde
  | .obj fs =>
    (decodeFields addressFields fs {}).bind fun s =>
      match s.street, s.suite, s.city, s.zipcode, s.geo with
      | some street, some suite, some city, some zipcode, some geo =>
        some ⟨street, suite, city, zipcode, geo⟩
      | _, _, _, _, _ => none
  | _ => none

structure CompanyAcc where
  name : Option String := none
  catch_phrase : Option String := none
  bs : Option String := none

def companyFields : List (FieldDecoder CompanyAcc) :=
  [ ⟨"name", fun s v => (setOnce decodeStr s.name v).map fun x => { s with name := x }⟩,
    ⟨"catchPhrase", fun s v => (setOnce decodeStr s.catch_phrase v).map fun x => { s with catch_phrase := x }⟩,
    ⟨"bs", fun s v => (setOnce decodeStr s.bs v).map fun x => { s with bs := x }⟩ ]

/-- Derived deserializer of `CompanySerde` (lib.rs 122-128); the wire key of
`catch_phrase` is `catchPhrase` per the `serde(rename)` attribute. -/
def CompanySerde.decode : Json → Option CompanySerde
  | .obj fs =>
    (decodeFields companyFields fs {}).bind fun s =>
      match s.name, s.catch_phrase, s.bs with
      | some name, some cp, some bs => some ⟨name, cp, bs⟩
      | _, _, _ => none
  | _ => none

structure PostAcc where
  id : Option Nat := none
  user_id : Option Nat := none
  title : Option String := none
  body : Option String := none

def postFields : List (FieldDecoder PostAcc) :=
  [ ⟨"id", fun s v => (setOnce decodeU64 s.id v).map fun x => { s with id := x }⟩,
    ⟨"userId", fun s v => (setOnce decodeU64 s.user_id v).map fun x => { s with user_id := x }⟩,
    ⟨"title", fun s v => (setOnce decodeStr s.title v).map fun x => { s with title := x }⟩,
    ⟨"body", fun s v => (setOnce decodeStr s.body v).map fun x => { s with body := x }⟩ ]

/-- Derived deserializer of `PostSerde` (lib.rs 140-147); wire key of
`user_id` is `userId`. -/
def PostSerde.decode : Json → Option PostSerde
  | .obj fs =>
    (decodeFields postFields fs {}).bind fun s =>
      match s.id, s.user_id, s.title, s.body with
      | some i, some u, some t, some b => some ⟨i, u, t, b⟩
      | _, _, _, _ => none
  | _ => none

structure UserAcc where
  id : Option Nat := none
  name : Option String := none
  username : Option String := none
  email : Option String := none
  phone : Option String := none
  website : Option String := none
  company : Option CompanySerde := none
  address : Option AddressSerde := none

def userFields : List (FieldDecoder UserAcc) :=
  [ ⟨"id", fun s v => (setOnce decodeU64 s.id v).map fun x => { s with id := x }⟩,
    ⟨"name", fun s v => (setOnce decodeStr s.name v).map fun x => { s with name := x }⟩,
    ⟨"username", fun s v => (setOnce decodeStr s.username v).map fun x => { s with username := x }⟩,
    ⟨"email", fun s v => (setOnce decodeStr s.email v).map fun x => { s with email := x }⟩,
    ⟨"phone", fun s v => (setOnce decodeStr s.phone v).map fun x => { s with phone := x }⟩,
    ⟨"website", fun s v => (setOnce decodeStr s.website v).map fun x => { s with website := x }⟩,
    ⟨"company", fun s v => (setOnce CompanySerde.decode s.company v).map fun x => { s with company := x }⟩,
    ⟨"address", fun s v => (setOnce AddressSerde.decode s.address v).map fun x => { s with address := x }⟩ ]

/-- Derived deserializer of `UserSerde` (lib.rs 160-170). -/
def UserSerde.decode : Json → Option UserSerde
  | .obj fs =>
    (decodeFields userFields fs {}).bind fun s =>
      match s.id, s.name, s.username, s.email, s.phone, s.website, s.company, s.address with
      | some i, some n, some un, some e, some ph, some w, some co, some ad =>
        some ⟨i, n, un, e, ph, w, co, ad⟩
      | _, _, _, _, _, _, _, _ => none
  | _ => none

structure CommentAcc where
  id : Option Nat := none
  post_id : Option Nat := none
  name : Option String := none
  email : Option String := none
  body : Option String := none

def commentFields : List (FieldDecoder CommentAcc) :=
  [ ⟨"id", fun s v => (setOnce decodeU64 s.id v).map fun x => { s with id := x }⟩,
    ⟨"postId", fun s v => (setOnce decodeU64 s.post_id v).map fun x => { s with post_id := x }⟩,
    ⟨"name", fun s v => (setOnce decodeStr s.name v).map fun x => { s with name := x }⟩,
    ⟨"email", fun s v => (setOnce decodeStr s.email v).map fun x => { s with email := x }⟩,
    ⟨"body", fun s v => (setOnce decodeStr s.body v).map fun x => { s with body := x }⟩ ]

/-- Derived deserializer of `CommentSerde` (lib.rs 187-195); wire key of
`post_id` is `postId`. -/
def CommentSerde.decode : Json → Option CommentSerde
  | .obj fs =>
    (decodeFields commentFields fs {}).bind fun s =>
      match s.id, s.post_id, s.name, s.email, s.body with
      | some i, some p, some n, some e, some b => some ⟨i, p, n, e, b⟩
      | _, _, _, _, _ => none
  | _ => none

structure AlbumAcc where
  id : Option Nat := none
  user_id : Option Nat := none
  title : Option String := none

def albumFields : List (FieldDecoder AlbumAcc) :=
  [ ⟨"id", fun s v => (setOnce decodeU64 s.id v).map fun x => { s with id := x }⟩,
    ⟨"userId", fun s v => (setOnce decodeU64 s.user_id v).map fun x => { s with user_id := x }⟩,
    ⟨"title", fun s v => (setOnce decodeStr s.title v).map fun x => { s with title := x }⟩ ]

/-- Derived deserializer of `AlbumSerde` (lib.rs 209-215); wire key of
`user_id` is `userId`. -/
def AlbumSerde.decode : Json → Option AlbumSerde
  | .obj fs =>
    (decodeFields albumFields fs {}).bind fun s =>
      match s.id, s.user_id, s.title with
      | some i, some u, some t => some ⟨i, u, t⟩
      | _, _, _ => none
  | _ => none

structure PhotoAcc where
  id : Option Nat := none
  album_id : Option Nat := none
  title : Option String := none
  url : Option String := none
  thumbnail_url : Option String := none

def photoFields : List (FieldDecoder PhotoAcc) :=
  [ ⟨"id", fun s v => (setOnce decodeU64 s.id v).map fun x => { s with id := x }⟩,
    ⟨"albumId", fun s v => (setOnce decodeU64 s.album_id v).map fun x => { s with album_id := x }⟩,
    ⟨"title", fun s v => (setOnce decodeStr s.title v).map fun x => { s with title := x }⟩,
    ⟨"url", fun s v => (setOnce decodeStr s.url v).map fun x => { s with url := x }⟩,
    ⟨"thumbnailUrl", fun s v => (setOnce decodeStr s.thumbnail_url v).map fun x => { s with thumbnail_url := x }⟩ ]

/-- Derived deserializer of `PhotoSerde` (lib.rs 227-236); wire keys of
`album_id` and `thumbnail_url` are `albumId` and `thumbnailUrl`. -/
def PhotoSerde.decode : Json → Option PhotoSerde
  | .obj fs =>
    (decodeFields photoFields fs {}).bind fun s =>
      match s.id, s.album_id, s.title, s.url, s.thumbnail_url with
      | some i, some a, some t, some u, some th => some ⟨i, a, t, u, th⟩
      | _, _, _, _, _ => none
  | _ => none

structure TodoAcc where
  id : Option Nat := none
  user_id : Option Nat := none
  title : Option String := none
  completed : Option Bool := none

def todoFields : List (FieldDecoder TodoAcc) :=
  [ ⟨"id", fun s v => (setOnce decodeU64 s.id v).map fun x => { s with id := x }⟩,
    ⟨"userId", fun s v => (setOnce decodeU64 s.user_id v).map fun x => { s with user_id := x }⟩,
    ⟨"title", fun s v => (setOnce decodeStr s.title v).map fun x => { s with title := x }⟩,
    ⟨"completed", fun s v => (setOnce decodeBool s.completed v).map fun x => { s with completed := x }⟩ ]

/-- Derived deserializer of `TodoSerde` (lib.rs 250-257); wire key of
`user_id` is `userId`. -/
def TodoSerde.decode : Json → Option TodoSerde
  | .obj fs =>
    (decodeFields todoFields fs {}).bind fun s =>
      match s.id, s.user_id, s.title, s.completed with
      | some i, some u, some t, some c => some ⟨i, u, t, c⟩
      | _, _, _, _ => none
  | _ => none

/-! ### Vec deserialization

`serde_json` deserializes `Vec<T>` from a JSON array only, element-wise in
array order, failing the whole vector at the first failing element. -/

def decodeVecAux {α : Type} (d : Json → Option α) : List Json → Option (List α)
  | [] => some []
  | x :: xs =>
    match d x with
    | none => none
    | some a =>
      match decodeVecAux d xs with
      | none => none
      | some as => some (a :: as)

/-- Deserializer of `Vec<T>` given the element deserializer. -/
def decodeVec {α : Type} (d : Json → Option α) : Json → Option (List α)
  | .arr xs => decodeVecAux d xs
  | _ => none

/-! ### JSON text parsing

Modelled from `serde_json::from_slice`: parse the whole byte buffer as one
JSON value with nothing but whitespace after it. Bytes are modelled as
characters; the fragment parsed covers the payloads this component consumes
(objects, arrays, strings without escape sequences, unsigned integers,
booleans, null). Recursion is fuelled; the input length bounds the nesting
depth, so the fuel used in `parseJson` never runs out on real input. -/

def isWsChar (c : Char) : Bool :=
  c == ' ' || c == '\n' || c == '\t' || c == '\r'

def skipWs (s : List Char) : List Char :=
  s.dropWhile isWsChar

/-- Scan a JSON string body after the opening quote; stops at the closing
quote. Escape sequences are not part of the modelled fragment. -/
def takeStringChars : List Char → Option (List Char × List Char)
  | [] => none
  | c :: rest =>
    if c = '"' then some ([], rest)
    else if c = '\\' then none
    else
      match takeStringChars rest with
      | some (cs, r) => some (c :: cs, r)
      | none => none

def digitsToNat (ds : List Char) : Nat :=
  ds.foldl (fun n c => n * 10 + (c.toNat - 48)) 0

mutual

def parseValue : Nat → List Char → Option (Json × List Char)
  | 0, _ => none
  | fuel + 1, s =>
    match skipWs s with
    | [] => none
    | c :: rest =>
      if c = 'n' then
        match rest with
        | 'u' :: 'l' :: 'l' :: r => some (.null, r)
        | _ => none
      else if c = 't' then
        match rest with
        | 'r' :: 'u' :: 'e' :: r => some (.bool true, r)
        | _ => none
      else if c = 'f' then
        match rest with
        | 'a' :: 'l' :: 's' :: 'e' :: r => some (.bool false, r)
        | _ => none
      else if c = '"' then
        match takeStringChars rest with
        | some (cs, r) => some (.str (String.mk cs), r)
        | none => none
      else if c.isDigit then
        some (.num (digitsToNat ((c :: rest).takeWhile Char.isDigit)),
              (c :: rest).dropWhile Char.isDigit)
      else if c = '[' then
        match skipWs rest with
        | ']' :: r => some (.arr [], r)
        | s2 =>
          match parseElems fuel s2 with
          | some (js, r) => some (.arr js, r)
          | none => none
      else if c = '\x7b' then
        match skipWs rest with
        | '\x7d' :: r => some (.obj [], r)
        | s2 =>
          match parseMembers fuel s2 with
          | some (ms, r) => some (.obj ms, r)
          | none => none
      else none

def parseElems : Nat → List Char → Option (List Json × List Char)
  | 0, _ => none
  | fuel + 1, s =>
    match parseValue fuel s with
    | none => none
    | some (j, r) =>
      match skipWs r with
      | ',' :: r2 =>
        match parseElems fuel r2 with
        | some (js, r3) => some (j :: js, r3)
        | none => none
      | ']' :: r2 => some ([j], r2)
      | _ => none

def parseMembers : Nat → List Char → Option (List (String × Json) × List Char)
  | 0, _ => none
  | fuel + 1, s =>
    match skipWs s with
    | '"' :: r =>
      match takeStringChars r with
      | none => none
      | some (k, r2) =>
        match skipWs r2 with
        | ':' :: r3 =>
          match parseValue fuel r3 with
          | none => none
          | some (v, r4) =>
            match skipWs r4 with
            | ',' :: r5 =>
              match parseMembers fuel r5 with
              | some (ms, r6) => some ((String.mk k, v) :: ms, r6)
              | none => none
            | '\x7d' :: r5 => some ([(String.mk k, v)], r5)
            | _ => none
        | _ => none
    | _ => none

end

/-- `serde_json::from_slice` on a byte buffer: one JSON value, then only
whitespace up to the end of the buffer. -/
def parseJson (bytes : List Char) : Option Json :=
  match parseValue (bytes.length + 1) bytes with
  | some (j, rest) => if skipWs rest = [] then some j else none
  | none => none

/-! ## Fetch client

`fetch_json` (lib.rs 21-80). The host transport is modelled as an oracle
`FetchEnv` recording the outcome of every fallible host call the function
makes, in source order, plus the response status and the successive results
of the `read(8192)` calls on the body stream. The endpoints consult the
oracle at the path they fetch (`Http` below), which makes the requested path
observable. -/

/-- Result of one `input_stream.read(8192)` call: a chunk of bytes (the
empty chunk signals end-of-stream) or a stream error. -/
inductive ReadResult where
  | ok (chunk : List Char) : ReadResult
  | err : ReadResult

/-- Outcome oracle for one HTTP exchange. A well-formed trace ends `reads`
with an empty chunk or an error; trace exhaustion is treated as
end-of-stream. -/
structure FetchEnv where
  methodOk : Bool
  schemeOk : Bool
  authorityOk : Bool
  pathOk : Bool
  handleOk : Bool
  futureReadyOk : Bool
  futureResultOk : Bool
  httpResultOk : Bool
  status : Nat
  consumeOk : Bool
  streamOk : Bool
  reads : List ReadResult

/-- The body-drain loop (lib.rs 65-76): read bounded chunks, stop on an
empty chunk; a read error BREAKS the loop, keeping the bytes read so far. -/
def drainBody : List ReadResult → List Char
  | [] => []
  | .ok chunk :: rest => if chunk.isEmpty then [] else chunk ++ drainBody rest
  | .err :: _ => []

/-- `fetch_json` (lib.rs 21-80): the `?`-chain of fallible host calls in
source order, the `status != 200` check, the body drain, and the final
`serde_json` decode of the drained bytes. `dec` is the instantiation of
`serde_json::from_slice::<T>`. -/
def fetch_json {α : Type} (env : FetchEnv) (dec : List Char → Option α) : Option α :=
  if !env.methodOk then none
  else if !env.schemeOk then none
  else if !env.authorityOk then none
  else if !env.pathOk then none
  else if !env.handleOk then none
  else if !env.futureReadyOk then none
  else if !env.futureResultOk then none
  else if !env.httpResultOk then none
  else if env.status ≠ 200 then none
  else if !env.consumeOk then none
  else if !env.streamOk then none
  else dec (drainBody env.reads)

/-- The host side of `outgoing_handler::handle`: one exchange outcome per
requested path-with-query. -/
def Http : Type := String → FetchEnv

/-! ## Body decoders per endpoint (`serde_json::from_slice::<T>`) -/

def decodePostBody (bytes : List Char) : Option PostSerde :=
  (parseJson bytes).bind PostSerde.decode

def decodePostsBody (bytes : List Char) : Option (List PostSerde) :=
  (parseJson bytes).bind (decodeVec PostSerde.decode)

def decodeCommentBody (bytes : List Char) : Option CommentSerde :=
  (parseJson bytes).bind CommentSerde.decode

def decodeCommentsBody (bytes : List Char) : Option (List CommentSerde) :=
  (parseJson bytes).bind (decodeVec CommentSerde.decode)

def decodeAlbumBody (bytes : List Char) : Option AlbumSerde :=
  (parseJson bytes).bind AlbumSerde.decode

def decodeAlbumsBody (bytes : List Char) : Option (List AlbumSerde) :=
  (parseJson bytes).bind (decodeVec AlbumSerde.decode)

def decodePhotoBody (bytes : List Char) : Option PhotoSerde :=
  (parseJson bytes).bind PhotoSerde.decode

def decodePhotosBody (bytes : List Char) : Option (List PhotoSerde) :=
  (parseJson bytes).bind (decodeVec PhotoSerde.decode)

def decodeTodoBody (bytes : List Char) : Option TodoSerde :=
  (parseJson bytes).bind TodoSerde.decode

def decodeTodosBody (bytes : List Char) : Option (List TodoSerde) :=
  (parseJson bytes).bind (decodeVec TodoSerde.decode)

def decodeUserBody (bytes : List Char) : Option UserSerde :=
  (parseJson bytes).bind UserSerde.decode

def decodeUsersBody (bytes : List Char) : Option (List UserSerde) :=
  (parseJson bytes).bind (decodeVec UserSerde.decode)

/-! ## Query-string builders

Each list endpoint inlines the same pattern (e.g. lib.rs 310-322 for
`get_comments`): push one `name=value` string per present filter in source
order into `q`, then append `?` + `q.join("&")` unless `q` is empty. The
`let`-shadowing below mirrors the sequence of `q.push` calls. -/

/-- Rust `Vec::join("&")`. -/
def joinAmp : List String → String
  | [] => ""
  | [x] => x
  | x :: xs => x ++ "&" ++ joinAmp xs

/-- Path built by `get_comments` (lib.rs 306-329). -/
def get_comments_path (id post_id : Option Nat) : String :=
  let q : List String := []
  let q := match id with
    | some i => q ++ ["id=" ++ toString i]
    | none => q
  let q := match post_id with
    | some p => q ++ ["postId=" ++ toString p]
    | none => q
  let query := if q.isEmpty then "" else "?" ++ joinAmp q
  "/comments" ++ query

/-- Path built by `get_albums` (lib.rs 341-364). -/
def get_albums_path (id user_id : Option Nat) : String :=
  let q : List String := []
  let q := match id with
    | some i => q ++ ["id=" ++ toString i]
    | none => q
  let q := match user_id with
    | some u => q ++ ["userId=" ++ toString u]
    | none => q
  let query := if q.isEmpty then "" else "?" ++ joinAmp q
  "/albums" ++ query

/-- Path built by `get_photos` (lib.rs 386-409). -/
def get_photos_path (id album_id : Option Nat) : String :=
  let q : List String := []
  let q := match id with
    | some i => q ++ ["id=" ++ toString i]
    | none => q
  let q := match album_id with
    | some a => q ++ ["albumId=" ++ toString a]
    | none => q
  let query := if q.isEmpty then "" else "?" ++ joinAmp q
  "/photos" ++ query

/-- Path built by `get_todos` (lib.rs 421-444). -/
def get_todos_path (id user_id : Option Nat) : String :=
  let q : List String := []
  let q := match id with
    | some i => q ++ ["id=" ++ toString i]
    | none => q
  let q := match user_id with
    | some u => q ++ ["userId=" ++ toString u]
    | none => q
  let query := if q.isEmpty then "" else "?" ++ joinAmp q
  "/todos" ++ query

/-- Path built by `get_users` (lib.rs 456-479); the second filter is the
raw email string. -/
def get_users_path (id : Option Nat) (email : Option String) : String :=
  let q : List String := []
  let q := match id with
    | some i => q ++ ["id=" ++ toString i]
    | none => q
  let q := match email with
    | some e => q ++ ["email=" ++ e]
    | none => q
  let query := if q.isEmpty then "" else "?" ++ joinAmp q
  "/users" ++ query

/-! ## Resource endpoints (`impl JsonplaceholderApi for ApiImpl`)

Every endpoint takes the host transport oracle first; the Rust `Result<T,
NotFoundError>` is `Except NotFoundError T`, `unwrap_or_default()` on a
`Vec` is `Option.getD _ []`. -/

/-- `get_posts` (lib.rs 277-283). -/
def get_posts (http : Http) (user_id : Nat) : List Post :=
  ((fetch_json (http ("/posts?userId=" ++ toString user_id)) decodePostsBody).getD []).map
    Post.fromSerde

/-- `get_post` (lib.rs 285-293). -/
def get_post (http : Http) (id : Nat) : Except NotFoundError Post :=
  match fetch_json (http ("/posts/" ++ toString id)) decodePostBody with
  | some p => .ok (Post.fromSerde p)
  | none => .error { message := "Not found" }

/-- `get_post_comments` (lib.rs 295-304). -/
def get_post_comments (http : Http) (id : Nat) : Except NotFoundError (List Comment) :=
  match fetch_json (http ("/posts/" ++ toString id ++ "/comments")) decodeCommentsBody with
  | some v => .ok (v.map Comment.fromSerde)
  | none => .error { message := "Not found" }

/-- `get_comments` (lib.rs 306-329). -/
def get_comments (http : Http) (id post_id : Option Nat) : List Comment :=
  ((fetch_json (http (get_comments_path id post_id)) decodeCommentsBody).getD []).map
    Comment.fromSerde

/-- `get_comment` (lib.rs 331-339). -/
def get_comment (http : Http) (id : Nat) : Except NotFoundError Comment :=
  match fetch_json (http ("/comments/" ++ toString id)) decodeCommentBody with
  | some c => .ok (Comment.fromSerde c)
  | none => .error { message := "Not found" }

/-- `get_albums` (lib.rs 341-364). -/
def get_albums (http : Http) (id user_id : Option Nat) : List Album :=
  ((fetch_json (http (get_albums_path id user_id)) decodeAlbumsBody).getD []).map
    Album.fromSerde

/-- `get_album` (lib.rs 366-374). -/
def get_album (http : Http) (id : Nat) : Except NotFoundError Album :=
  match fetch_json (http ("/albums/" ++ toString id)) decodeAlbumBody with
  | some a => .ok (Album.fromSerde a)
  | none => .error { message := "Not found" }

/-- `get_album_photos` (lib.rs 376-384). -/
def get_album_photos (http : Http) (id : Nat) : Except NotFoundError (List Photo) :=
  match fetch_json (http ("/albums/" ++ toString id ++ "/photos")) decodePhotosBody with
  | some v => .ok (v.map Photo.fromSerde)
  | none => .error { message := "Not found" }

/-- `get_photos` (lib.rs 386-409). -/
def get_photos (http : Http) (id album_id : Option Nat) : List Photo :=
  ((fetch_json (http (get_photos_path id album_id)) decodePhotosBody).getD []).map
    Photo.fromSerde

/-- `get_photo` (lib.rs 411-419). -/
def get_photo (http : Http) (id : Nat) : Except NotFoundError Photo :=
  match fetch_json (http ("/photos/" ++ toString id)) decodePhotoBody with
  | some p => .ok (Photo.fromSerde p)
  | none => .error { message := "Not found" }

/-- `get_todos` (lib.rs 421-444). -/
def get_todos (http : Http) (id user_id : Option Nat) : List Todo :=
  ((fetch_json (http (get_todos_path id user_id)) decodeTodosBody).getD []).map
    Todo.fromSerde

/-- `get_todo` (lib.rs 446-454). -/
def get_todo (http : Http) (id : Nat) : Except NotFoundError Todo :=
  match fetch_json (http ("/todos/" ++ toString id)) decodeTodoBody with
  | some t => .ok (Todo.fromSerde t)
  | none => .error { message := "Not found" }

/-- `get_users` (lib.rs 456-479). -/
def get_users (http : Http) (id : Option Nat) (email : Option String) : List User :=
  ((fetch_json (http (get_users_path id email)) decodeUsersBody).getD []).map
    User.fromSerde

/-- `get_user` (lib.rs 481-489). -/
def get_user (http : Http) (id : Nat) : Except NotFoundError User :=
  match fetch_json (http ("/users/" ++ toString id)) decodeUserBody with
  | some u => .ok (User.fromSerde u)
  | none => .error { message := "Not found" }

/-! # Helper lemmas on the decoders -/

theorem decodeVecAux_length {α : Type} (d : Json → Option α) :
    ∀ (xs : List Json) (ys : List α), decodeVecAux d xs = some ys → ys.length = xs.length := by
  intro xs
  induction xs with
  | nil =>
    intro ys h
    cases h
    rfl
  | cons x xs ih =>
    intro ys h
    cases hd : d x with
    | none => simp [decodeVecAux, hd] at h
    | some a =>
      cases hrest : decodeVecAux d xs with
      | none => simp [decodeVecAux, hd, hrest] at h
      | some as =>
        simp only [decodeVecAux, hd, hrest] at h
        cases h
        simp [ih as hrest]

theorem decodeVecAux_get {α : Type} (d : Json → Option α) :
    ∀ (xs : List Json) (ys : List α), decodeVecAux d xs = some ys →
      ∀ (i : Nat) (hx : i < xs.length) (hy : i < ys.length),
        d (xs.get ⟨i, hx⟩) = some (ys.get ⟨i, hy⟩) := by
  intro xs
  induction xs with
  | nil => intro ys h i hx hy; exact absurd hx (by simp)
  | cons x xs ih =>
    intro ys h i hx hy
    cases hd : d x with
    | none => simp [decodeVecAux, hd] at h
    | some a =>
      cases hrest : decodeVecAux d xs with
      | none => simp [decodeVecAux, hd, hrest] at h
      | some as =>
        simp only [decodeVecAux, hd, hrest] at h
        cases h
        cases i with
        | zero => simpa using hd
        | succ n =>
          have hx2 : n < xs.length := by simpa using hx
          have hy2 : n < as.length := by simpa using hy
          simpa using ih as hrest n hx2 hy2

theorem decodeVecAux_none_of_mem {α : Type} (d : Json → Option α) :
    ∀ (xs : List Json) (x : Json), x ∈ xs → d x = none → decodeVecAux d xs = none := by
  intro xs
  induction xs with
  | nil => intro x hx; exact absurd hx (by simp)
  | cons y ys ih =>
    intro x hx hd
    rcases List.mem_cons.mp hx with rfl | hmem
    · simp [decodeVecAux, hd]
    · cases hdy : d y with
      | none => simp [decodeVecAux, hdy]
      | some a => simp [decodeVecAux, hdy, ih x hmem hd]

/-- A key is recognized by a field-spec list when `find?` locates it. -/
def recognizes {σ : Type} (specs : List (FieldDecoder σ)) (k : String) : Bool :=
  (specs.find? fun d => d.key == k).isSome

theorem applyField_unrecognized {σ : Type} (specs : List (FieldDecoder σ)) (s : σ)
    (k : String) (v : Json) (h : recognizes specs k = false) :
    applyField specs s k v = some s := by
  unfold applyField
  cases hf : specs.find? fun d => d.key == k with
  | none => rfl
  | some d => simp [recognizes, hf] at h

/-- A run of the field fold over unrecognized keys only changes nothing. -/
theorem decodeFields_all_unrecognized {σ : Type} (specs : List (FieldDecoder σ)) :
    ∀ (extras : List (String × Json)), (∀ p ∈ extras, recognizes specs p.1 = false) →
      ∀ s : σ, decodeFields specs extras s = some s := by
  intro extras
  induction extras with
  | nil => intro h s; rfl
  | cons p ps ih =>
    intro h s
    obtain ⟨k, v⟩ := p
    have hk : recognizes specs k = false := h (k, v) (List.mem_cons_self _ _)
    simp [decodeFields, applyField_unrecognized specs s k v hk,
      ih (fun q hq => h q (List.mem_cons_of_mem _ hq)) s]

/-- Appending unrecognized keys to a JSON map does not change the field
fold's outcome. -/
theorem decodeFields_append_unrecognized {σ : Type} (specs : List (FieldDecoder σ))
    (extras : List (String × Json)) (hex : ∀ p ∈ extras, recognizes specs p.1 = false) :
    ∀ (fs : List (String × Json)) (s : σ),
      decodeFields specs (fs ++ extras) s = decodeFields specs fs s := by
  intro fs
  induction fs with
  | nil =>
    intro s
    simpa using decodeFields_all_unrecognized specs extras hex s
  | cons p ps ih =>
    intro s
    obtain ⟨k, v⟩ := p
    simp only [List.cons_append, decodeFields]
    cases ha : applyField specs s k v with
    | none => simp
    | some s2 => simp [ih s2]

/-! # Helper lemmas on the fetch client -/

/-- Any one failing step of `fetch_json` — request construction
(method/scheme/authority/path), transport (`handle`, the future, the HTTP
result), a non-200 status, body-stream acquisition (`consume`/`stream`), or
the final decode — makes the whole fetch fail. -/
theorem fetchJson_none_of_cause {α : Type} (env : FetchEnv) (dec : List Char → Option α)
    (h : env.methodOk = false ∨ env.schemeOk = false ∨ env.authorityOk = false ∨
      env.pathOk = false ∨ env.handleOk = false ∨ env.futureReadyOk = false ∨
      env.futureResultOk = false ∨ env.httpResultOk = false ∨ env.status ≠ 200 ∨
      env.consumeOk = false ∨ env.streamOk = false ∨ dec (drainBody env.reads) = none) :
    fetch_json env dec = none := by
  rcases h with h | h | h | h | h | h | h | h | h | h | h | h <;> simp [fetch_json, h]

theorem fetchJson_none_of_status {α : Type} (env : FetchEnv)
    (dec : List Char → Option α) (h : env.status ≠ 200) : fetch_json env dec = none :=
  fetchJson_none_of_cause env dec (by tauto)

theorem fetchJson_none_of_handle {α : Type} (env : FetchEnv)
    (dec : List Char → Option α) (h : env.handleOk = false) : fetch_json env dec = none :=
  fetchJson_none_of_cause env dec (by tauto)

theorem fetchJson_status_of_some {α : Type} (env : FetchEnv) (dec : List Char → Option α)
    (r : α) (h : fetch_json env dec = some r) : env.status = 200 := by
  by_cases hs : env.status = 200
  · exact hs
  · rw [fetchJson_none_of_status env dec hs] at h
    exact absurd h (by simp)

/-- When every host call succeeds and the status is 200, the fetch result is
exactly the decode of the drained body bytes. -/
theorem fetchJson_run {α : Type} (env : FetchEnv) (dec : List Char → Option α)
    (h1 : env.methodOk = true) (h2 : env.schemeOk = true) (h3 : env.authorityOk = true)
    (h4 : env.pathOk = true) (h5 : env.handleOk = true) (h6 : env.futureReadyOk = true)
    (h7 : env.futureResultOk = true) (h8 : env.httpResultOk = true)
    (h9 : env.status = 200) (h10 : env.consumeOk = true) (h11 : env.streamOk = true) :
    fetch_json env dec = dec (drainBody env.reads) := by
  simp [fetch_json, h1, h2, h3, h4, h5, h6, h7, h8, h9, h10, h11]

/-- A read trace of nonempty chunks cut short by a stream error drains to the
concatenation of the chunks before the error: the loop breaks and keeps them. -/
theorem drainBody_chunks_then_err (pre : List (List Char)) (rest : List ReadResult)
    (h : ∀ c ∈ pre, c ≠ []) :
    drainBody (pre.map ReadResult.ok ++ ReadResult.err :: rest) = pre.flatten := by
  induction pre with
  | nil => simp [drainBody]
  | cons c cs ih =>
    have hc : c ≠ [] := h c (List.mem_cons_self c cs)
    simp [drainBody, hc, ih fun x hx => h x (List.mem_cons_of_mem c hx)]

/-- A read trace of nonempty chunks ended by an empty read drains to the
concatenation of the chunks before it. -/
theorem drainBody_chunks_then_empty (pre : List (List Char)) (rest : List ReadResult)
    (h : ∀ c ∈ pre, c ≠ []) :
    drainBody (pre.map ReadResult.ok ++ ReadResult.ok [] :: rest) = pre.flatten := by
  induction pre with
  | nil => simp [drainBody]
  | cons c cs ih =>
    have hc : c ≠ [] := h c (List.mem_cons_self c cs)
    simp [drainBody, hc, ih fun x hx => h x (List.mem_cons_of_mem c hx)]

/-! ## Concrete exchange outcomes used by witnesses and counterexamples -/

/-- An exchange in which every host call succeeds, with the given status and
read trace. -/
def envOk (status : Nat) (reads : List ReadResult) : FetchEnv :=
  { methodOk := true, schemeOk := true, authorityOk := true, pathOk := true,
    handleOk := true, futureReadyOk := true, futureResultOk := true,
    httpResultOk := true, status := status, consumeOk := true, streamOk := true,
    reads := reads }

/-- Status 200; one full JSON post object is read, then the stream errors
mid-stream (before ever signalling end-of-stream). -/
def envMidStreamErr : FetchEnv :=
  envOk 200 [.ok "\x7b\"id\":1,\"userId\":5,\"title\":\"t\",\"body\":\"b\"\x7d".data, .err]

/-- Status 404 with a well-formed (empty) body stream. -/
def env404 : FetchEnv :=
  envOk 404 [.ok []]

/-- Transport failure: `outgoing_handler::handle` errors. -/
def envTransportFail : FetchEnv :=
  { envOk 200 [.ok []] with handleOk := false }

/-- Status 200 but a body that decodes as no entity and no entity list. -/
def envDecodeFail : FetchEnv :=
  envOk 200 [.ok ['x'], .ok []]

/-- Status 200 with a one-element posts array body, properly terminated. -/
def envPostsOk : FetchEnv :=
  envOk 200 [.ok "[\x7b\"id\":1,\"userId\":7,\"title\":\"t\",\"body\":\"b\"\x7d]".data, .ok []]

/-! # Theorems -/

/-- C1 counterexample: in `fetch_json` a read error mid-stream does NOT make
the fetch fail, and the partially read bytes are not discarded: with status
200 and a read trace that delivers one chunk and then errors (never signalling
end-of-stream), the drained bytes are exactly that chunk, they are decoded,
and `get_post` returns the decoded entity to the caller. -/
theorem read_error_mid_stream_fetch_succeeds :
    envMidStreamErr.reads =
      [ReadResult.ok "\x7b\"id\":1,\"userId\":5,\"title\":\"t\",\"body\":\"b\"\x7d".data,
        ReadResult.err] ∧
    drainBody envMidStreamErr.reads =
      "\x7b\"id\":1,\"userId\":5,\"title\":\"t\",\"body\":\"b\"\x7d".data ∧
    fetch_json envMidStreamErr decodePostBody = some ⟨1, 5, "t", "b"⟩ ∧
    get_post (fun _ => envMidStreamErr) 1 =
      .ok { id := 1, user_id := 5, title := "t", body := "b" } :=
  ⟨rfl, rfl, rfl, rfl⟩

/-- C1 (amended): when the HTTP status is 200 (and the preceding host calls
succeed), the body is drained by repeated bounded reads; an empty read ends
the stream, while a read error mid-stream silently ends the drain loop with
the partially read bytes KEPT — those bytes are then passed to the JSON
decoder, so the fetch fails only if they fail to decode. -/
theorem body_drain_keeps_partial_bytes :
    (∀ {α : Type} (env : FetchEnv) (dec : List Char → Option α),
      env.methodOk = true → env.schemeOk = true → env.authorityOk = true →
      env.pathOk = true → env.handleOk = true → env.futureReadyOk = true →
      env.futureResultOk = true → env.httpResultOk = true → env.status = 200 →
      env.consumeOk = true → env.streamOk = true →
      fetch_json env dec = dec (drainBody env.reads)) ∧
    (∀ (pre : List (List Char)) (rest : List ReadResult), (∀ c ∈ pre, c ≠ []) →
      drainBody (pre.map ReadResult.ok ++ ReadResult.err :: rest) = pre.flatten) ∧
    (∀ (pre : List (List Char)) (rest : List ReadResult), (∀ c ∈ pre, c ≠ []) →
      drainBody (pre.map ReadResult.ok ++ ReadResult.ok [] :: rest) = pre.flatten) :=
  ⟨fun env dec h1 h2 h3 h4 h5 h6 h7 h8 h9 h10 h11 =>
    fetchJson_run env dec h1 h2 h3 h4 h5 h6 h7 h8 h9 h10 h11,
   drainBody_chunks_then_err,
   drainBody_chunks_then_empty⟩

/-- Witness for `body_drain_keeps_partial_bytes` at a concrete exchange and a
concrete errored read trace. -/
theorem body_drain_keeps_partial_bytes_witness :
    fetch_json envMidStreamErr decodePostBody =
      decodePostBody (drainBody envMidStreamErr.reads) ∧
    drainBody (List.map ReadResult.ok [['a', 'b']] ++ ReadResult.err :: []) =
      [['a', 'b']].flatten :=
  ⟨body_drain_keeps_partial_bytes.1 envMidStreamErr decodePostBody
      rfl rfl rfl rfl rfl rfl rfl rfl rfl rfl rfl,
   body_drain_keeps_partial_bytes.2.1 [['a', 'b']] [] (by simp)⟩

/-- The decode-failure exchange fails the fetch for any decoder that rejects
its one-byte body. -/
theorem fetchJson_envDecodeFail_none {α : Type} (dec : List Char → Option α)
    (h : dec ['x'] = none) : fetch_json envDecodeFail dec = none := by
  have hr : fetch_json envDecodeFail dec = dec (drainBody envDecodeFail.reads) :=
    fetchJson_run envDecodeFail dec rfl rfl rfl rfl rfl rfl rfl rfl rfl rfl rfl
  rw [hr]
  exact h

/-- C8: a fetch succeeds only when the HTTP status is exactly 200; every
non-200 status, whatever the code and regardless of the body, fails the
fetch; and at each of the fourteen endpoints a transport that always answers
non-200 produces the same caller-visible outcome as one that always fails at
transport level and as one whose bodies always fail to decode. -/
theorem status_200_is_the_only_success :
    (∀ {α : Type} (env : FetchEnv) (dec : List Char → Option α) (r : α),
      fetch_json env dec = some r → env.status = 200) ∧
    (∀ {α : Type} (env : FetchEnv) (dec : List Char → Option α),
      env.status ≠ 200 → fetch_json env dec = none) ∧
    (∀ (hs ht hd : Http),
      (∀ p, (hs p).status ≠ 200) → (∀ p, (ht p).handleOk = false) →
      (∀ p, hd p = envDecodeFail) →
      (∀ id, get_post hs id = get_post ht id ∧ get_post hs id = get_post hd id) ∧
      (∀ id, get_comment hs id = get_comment ht id ∧ get_comment hs id = get_comment hd id) ∧
      (∀ id, get_album hs id = get_album ht id ∧ get_album hs id = get_album hd id) ∧
      (∀ id, get_photo hs id = get_photo ht id ∧ get_photo hs id = get_photo hd id) ∧
      (∀ id, get_todo hs id = get_todo ht id ∧ get_todo hs id = get_todo hd id) ∧
      (∀ id, get_user hs id = get_user ht id ∧ get_user hs id = get_user hd id) ∧
      (∀ uid, get_posts hs uid = get_posts ht uid ∧ get_posts hs uid = get_posts hd uid) ∧
      (∀ i p, get_comments hs i p = get_comments ht i p ∧
        get_comments hs i p = get_comments hd i p) ∧
      (∀ i u, get_albums hs i u = get_albums ht i u ∧
        get_albums hs i u = get_albums hd i u) ∧
      (∀ i a, get_photos hs i a = get_photos ht i a ∧
        get_photos hs i a = get_photos hd i a) ∧
      (∀ i u, get_todos hs i u = get_todos ht i u ∧
        get_todos hs i u = get_todos hd i u) ∧
      (∀ i e, get_users hs i e = get_users ht i e ∧
        get_users hs i e = get_users hd i e) ∧
      (∀ id, get_post_comments hs id = get_post_comments ht id ∧
        get_post_comments hs id = get_post_comments hd id) ∧
      (∀ id, get_album_photos hs id = get_album_photos ht id ∧
        get_album_photos hs id = get_album_photos hd id)) :=
  ⟨fun env dec r h => fetchJson_status_of_some env dec r h,
   fun env dec h => fetchJson_none_of_status env dec h,
   by
    intro hs ht hd h1 h2 h3
    refine ⟨fun id => ?_, fun id => ?_, fun id => ?_, fun id => ?_, fun id => ?_,
      fun id => ?_, fun uid => ?_, fun i p => ?_, fun i u => ?_, fun i a => ?_,
      fun i u => ?_, fun i e => ?_, fun id => ?_, fun id => ?_⟩
    · constructor <;> simp [get_post, fetchJson_none_of_status _ decodePostBody (h1 _),
        fetchJson_none_of_handle _ decodePostBody (h2 _), h3,
        fetchJson_envDecodeFail_none decodePostBody rfl]
    · constructor <;> simp [get_comment, fetchJson_none_of_status _ decodeCommentBody (h1 _),
        fetchJson_none_of_handle _ decodeCommentBody (h2 _), h3,
        fetchJson_envDecodeFail_none decodeCommentBody rfl]
    · constructor <;> simp [get_album, fetchJson_none_of_status _ decodeAlbumBody (h1 _),
        fetchJson_none_of_handle _ decodeAlbumBody (h2 _), h3,
        fetchJson_envDecodeFail_none decodeAlbumBody rfl]
    · constructor <;> simp [get_photo, fetchJson_none_of_status _ decodePhotoBody (h1 _),
        fetchJson_none_of_handle _ decodePhotoBody (h2 _), h3,
        fetchJson_envDecodeFail_none decodePhotoBody rfl]
    · constructor <;> simp [get_todo, fetchJson_none_of_status _ decodeTodoBody (h1 _),
        fetchJson_none_of_handle _ decodeTodoBody (h2 _), h3,
        fetchJson_envDecodeFail_none decodeTodoBody rfl]
    · constructor <;> simp [get_user, fetchJson_none_of_status _ decodeUserBody (h1 _),
        fetchJson_none_of_handle _ decodeUserBody (h2 _), h3,
        fetchJson_envDecodeFail_none decodeUserBody rfl]
    · constructor <;> simp [get_posts, fetchJson_none_of_status _ decodePostsBody (h1 _),
        fetchJson_none_of_handle _ decodePostsBody (h2 _), h3,
        fetchJson_envDecodeFail_none decodePostsBody rfl]
    · constructor <;> simp [get_comments, fetchJson_none_of_status _ decodeCommentsBody (h1 _),
        fetchJson_none_of_handle _ decodeCommentsBody (h2 _), h3,
        fetchJson_envDecodeFail_none decodeCommentsBody rfl]
    · constructor <;> simp [get_albums, fetchJson_none_of_status _ decodeAlbumsBody (h1 _),
        fetchJson_none_of_handle _ decodeAlbumsBody (h2 _), h3,
        fetchJson_envDecodeFail_none decodeAlbumsBody rfl]
    · constructor <;> simp [get_photos, fetchJson_none_of_status _ decodePhotosBody (h1 _),
        fetchJson_none_of_handle _ decodePhotosBody (h2 _), h3,
        fetchJson_envDecodeFail_none decodePhotosBody rfl]
    · constructor <;> simp [get_todos, fetchJson_none_of_status _ decodeTodosBody (h1 _),
        fetchJson_none_of_handle _ decodeTodosBody (h2 _), h3,
        fetchJson_envDecodeFail_none decodeTodosBody rfl]
    · constructor <;> simp [get_users, fetchJson_none_of_status _ decodeUsersBody (h1 _),
        fetchJson_none_of_handle _ decodeUsersBody (h2 _), h3,
        fetchJson_envDecodeFail_none decodeUsersBody rfl]
    · constructor <;> simp [get_post_comments,
        fetchJson_none_of_status _ decodeCommentsBody (h1 _),
        fetchJson_none_of_handle _ decodeCommentsBody (h2 _), h3,
        fetchJson_envDecodeFail_none decodeCommentsBody rfl]
    · constructor <;> simp [get_album_photos,
        fetchJson_none_of_status _ decodePhotosBody (h1 _),
        fetchJson_none_of_handle _ decodePhotosBody (h2 _), h3,
        fetchJson_envDecodeFail_none decodePhotosBody rfl]⟩

/-- Witness for `status_200_is_the_only_success`: a 404 exchange, a transport
failure and a decode failure give the same concrete outcomes. -/
theorem status_200_witness :
    get_post (fun _ => env404) 1 = get_post (fun _ => envTransportFail) 1 ∧
    get_posts (fun _ => env404) 7 = get_posts (fun _ => envTransportFail) 7 :=
  ⟨((status_200_is_the_only_success.2.2 (fun _ => env404) (fun _ => envTransportFail)
      (fun _ => envDecodeFail) (fun _ => show env404.status ≠ 200 by decide)
      (fun _ => rfl) (fun _ => rfl)).1 1).1,
   ((status_200_is_the_only_success.2.2 (fun _ => env404) (fun _ => envTransportFail)
      (fun _ => envDecodeFail) (fun _ => show env404.status ≠ 200 by decide)
      (fun _ => rfl) (fun _ => rfl)).2.2.2.2.2.2.1 7).1⟩

/-- C9: `get_posts` takes a mandatory (non-optional) `user_id` — its type is
`Http → Nat → List Post` — and for every `user_id` it consults the transport
at exactly the path `/posts?userId=<user_id>`; on fetch-and-decode success it
returns the decoded list of posts. -/
theorem get_posts_mandatory_user_id_path :
    (∀ (h1 h2 : Http) (user_id : Nat),
      h1 ("/posts?userId=" ++ toString user_id) = h2 ("/posts?userId=" ++ toString user_id) →
      get_posts h1 user_id = get_posts h2 user_id) ∧
    (∀ (http : Http) (user_id : Nat) (l : List PostSerde),
      fetch_json (http ("/posts?userId=" ++ toString user_id)) decodePostsBody = some l →
      get_posts http user_id = l.map Post.fromSerde) :=
  ⟨by intro h1 h2 user_id he; simp only [get_posts, he],
   by intro http user_id l h; simp [get_posts, h]⟩

/-- Witness for `get_posts_mandatory_user_id_path`: a transport answering
with one post for user 7 yields that decoded post. -/
theorem get_posts_witness :
    get_posts (fun _ => envPostsOk) 7 = [{ id := 1, user_id := 7, title := "t", body := "b" }] :=
  get_posts_mandatory_user_id_path.2 (fun _ => envPostsOk) 7
    [{ id := 1, user_id := 7, title := "t", body := "b" }] rfl

/-- C7: decoding a JSON array of N well-formed wire objects yields a wire
sequence of length N, element-wise in array order (so the mapped domain
sequence also has length N and the same order), and if any single element
fails to decode the whole collection decode fails with no partial result. -/
theorem collection_decode_elementwise_all_or_nothing :
    (∀ {α : Type} (d : Json → Option α) (xs : List Json) (ys : List α),
      decodeVec d (.arr xs) = some ys →
        ys.length = xs.length ∧
        ∀ (i : Nat) (hx : i < xs.length) (hy : i < ys.length),
          d (xs.get ⟨i, hx⟩) = some (ys.get ⟨i, hy⟩)) ∧
    (∀ {α : Type} (d : Json → Option α) (xs : List Json) (x : Json),
      x ∈ xs → d x = none → decodeVec d (.arr xs) = none) ∧
    (∀ (xs : List Json) (ws : List CommentSerde),
      decodeVec CommentSerde.decode (.arr xs) = some ws →
        (ws.map Comment.fromSerde).length = xs.length) :=
  ⟨fun d xs ys h => ⟨decodeVecAux_length d xs ys h, decodeVecAux_get d xs ys h⟩,
   fun d xs x hm hd => decodeVecAux_none_of_mem d xs x hm hd,
   fun xs ws h => by simpa using decodeVecAux_length CommentSerde.decode xs ws h⟩

/-- Witness for `collection_decode_elementwise_all_or_nothing`: a one-element
comment array decodes to a length-1 sequence, and the same array with a
non-object second element fails as a whole. -/
theorem collection_decode_witness :
    ([⟨1, 3, "n", "e", "b"⟩] : List CommentSerde).length =
      [Json.obj [("id", .num 1), ("postId", .num 3), ("name", .str "n"),
        ("email", .str "e"), ("body", .str "b")]].length ∧
    decodeVec CommentSerde.decode
      (.arr [.obj [("id", .num 1), ("postId", .num 3), ("name", .str "n"),
        ("email", .str "e"), ("body", .str "b")], .str "oops"]) = none :=
  ⟨(collection_decode_elementwise_all_or_nothing.1 CommentSerde.decode
      [Json.obj [("id", .num 1), ("postId", .num 3), ("name", .str "n"),
        ("email", .str "e"), ("body", .str "b")]]
      [⟨1, 3, "n", "e", "b"⟩] rfl).1,
   collection_decode_elementwise_all_or_nothing.2.1 CommentSerde.decode
      [.obj [("id", .num 1), ("postId", .num 3), ("name", .str "n"),
        ("email", .str "e"), ("body", .str "b")], .str "oops"]
      (.str "oops") (by simp) rfl⟩

/-- C10: for every entity family, a JSON object whose recognized keys decode
to a wire value still decodes to that same value when additional
unrecognized keys are appended: unknown keys are silently ignored (none of
the serde structs enable `deny_unknown_fields`), so strict decoding rejects
only missing or mistyped required fields, never extra ones. -/
theorem unknown_fields_ignored :
    (∀ (fs extras : List (String × Json)) (w : PostSerde),
      PostSerde.decode (.obj fs) = some w →
      (∀ p ∈ extras, recognizes postFields p.1 = false) →
      PostSerde.decode (.obj (fs ++ extras)) = some w) ∧
    (∀ (fs extras : List (String × Json)) (w : CommentSerde),
      CommentSerde.decode (.obj fs) = some w →
      (∀ p ∈ extras, recognizes commentFields p.1 = false) →
      CommentSerde.decode (.obj (fs ++ extras)) = some w) ∧
    (∀ (fs extras : List (String × Json)) (w : AlbumSerde),
      AlbumSerde.decode (.obj fs) = some w →
      (∀ p ∈ extras, recognizes albumFields p.1 = false) →
      AlbumSerde.decode (.obj (fs ++ extras)) = some w) ∧
    (∀ (fs extras : List (String × Json)) (w : PhotoSerde),
      PhotoSerde.decode (.obj fs) = some w →
      (∀ p ∈ extras, recognizes photoFields p.1 = false) →
      PhotoSerde.decode (.obj (fs ++ extras)) = some w) ∧
    (∀ (fs extras : List (String × Json)) (w : TodoSerde),
      TodoSerde.decode (.obj fs) = some w →
      (∀ p ∈ extras, recognizes todoFields p.1 = false) →
      TodoSerde.decode (.obj (fs ++ extras)) = some w) ∧
    (∀ (fs extras : List (String × Json)) (w : UserSerde),
      UserSerde.decode (.obj fs) = some w →
      (∀ p ∈ extras, recognizes userFields p.1 = false) →
      UserSerde.decode (.obj (fs ++ extras)) = some w) :=
  ⟨by intro fs extras w hw hex
      simp only [PostSerde.decode] at hw ⊢
      rw [decodeFields_append_unrecognized postFields extras hex fs]
      exact hw,
   by intro fs extras w hw hex
      simp only [CommentSerde.decode] at hw ⊢
      rw [decodeFields_append_unrecognized commentFields extras hex fs]
      exact hw,
   by intro fs extras w hw hex
      simp only [AlbumSerde.decode] at hw ⊢
      rw [decodeFields_append_unrecognized albumFields extras hex fs]
      exact hw,
   by intro fs extras w hw hex
      simp only [PhotoSerde.decode] at hw ⊢
      rw [decodeFields_append_unrecognized photoFields extras hex fs]
      exact hw,
   by intro fs extras w hw hex
      simp only [TodoSerde.decode] at hw ⊢
      rw [decodeFields_append_unrecognized todoFields extras hex fs]
      exact hw,
   by intro fs extras w hw hex
      simp only [UserSerde.decode] at hw ⊢
      rw [decodeFields_append_unrecognized userFields extras hex fs]
      exact hw⟩

/-- Witness for `unknown_fields_ignored`: a post object with an extra
`"extra"` key still decodes, to the same wire value. -/
theorem unknown_fields_witness :
    PostSerde.decode (.obj ([("id", .num 1), ("userId", .num 5), ("title", .str "t"),
      ("body", .str "b")] ++ [("extra", .null)])) = some ⟨1, 5, "t", "b"⟩ :=
  unknown_fields_ignored.1
    [("id", .num 1), ("userId", .num 5), ("title", .str "t"), ("body", .str "b")]
    [("extra", .null)] ⟨1, 5, "t", "b"⟩ rfl
    (by intro p hp
        simp only [List.mem_singleton] at hp
        subst hp
        rfl)

/-- C3: every single-item endpoint (`get_post`, `get_comment`, `get_album`,
`get_photo`, `get_todo`, `get_user`) returns `NotFoundError` with message
exactly `"Not found"` on every failure cause — request construction,
transport, non-200 status, body-stream acquisition, decode (first clause
enumerates the causes at the fetch level) — and returns the decoded domain
entity exactly when the fetch and decode succeed. The endpoints are total
Lean functions, so no execution panics. -/
theorem single_item_endpoints_policy :
    (∀ {α : Type} (env : FetchEnv) (dec : List Char → Option α),
      env.methodOk = false ∨ env.schemeOk = false ∨ env.authorityOk = false ∨
      env.pathOk = false ∨ env.handleOk = false ∨ env.futureReadyOk = false ∨
      env.futureResultOk = false ∨ env.httpResultOk = false ∨ env.status ≠ 200 ∨
      env.consumeOk = false ∨ env.streamOk = false ∨ dec (drainBody env.reads) = none →
      fetch_json env dec = none) ∧
    (∀ (http : Http) (id : Nat),
      (fetch_json (http ("/posts/" ++ toString id)) decodePostBody = none →
        get_post http id = .error { message := "Not found" }) ∧
      (∀ w, fetch_json (http ("/posts/" ++ toString id)) decodePostBody = some w →
        get_post http id = .ok (Post.fromSerde w))) ∧
    (∀ (http : Http) (id : Nat),
      (fetch_json (http ("/comments/" ++ toString id)) decodeCommentBody = none →
        get_comment http id = .error { message := "Not found" }) ∧
      (∀ w, fetch_json (http ("/comments/" ++ toString id)) decodeCommentBody = some w →
        get_comment http id = .ok (Comment.fromSerde w))) ∧
    (∀ (http : Http) (id : Nat),
      (fetch_json (http ("/albums/" ++ toString id)) decodeAlbumBody = none →
        get_album http id = .error { message := "Not found" }) ∧
      (∀ w, fetch_json (http ("/albums/" ++ toString id)) decodeAlbumBody = some w →
        get_album http id = .ok (Album.fromSerde w))) ∧
    (∀ (http : Http) (id : Nat),
      (fetch_json (http ("/photos/" ++ toString id)) decodePhotoBody = none →
        get_photo http id = .error { message := "Not found" }) ∧
      (∀ w, fetch_json (http ("/photos/" ++ toString id)) decodePhotoBody = some w →
        get_photo http id = .ok (Photo.fromSerde w))) ∧
    (∀ (http : Http) (id : Nat),
      (fetch_json (http ("/todos/" ++ toString id)) decodeTodoBody = none →
        get_todo http id = .error { message := "Not found" }) ∧
      (∀ w, fetch_json (http ("/todos/" ++ toString id)) decodeTodoBody = some w →
        get_todo http id = .ok (Todo.fromSerde w))) ∧
    (∀ (http : Http) (id : Nat),
      (fetch_json (http ("/users/" ++ toString id)) decodeUserBody = none →
        get_user http id = .error { message := "Not found" }) ∧
      (∀ w, fetch_json (http ("/users/" ++ toString id)) decodeUserBody = some w →
        get_user http id = .ok (User.fromSerde w))) :=
  ⟨fun env dec h => fetchJson_none_of_cause env dec h,
   fun http id => ⟨fun h => by simp [get_post, h],
     fun w h => by simp [get_post, h]⟩,
   fun http id => ⟨fun h => by simp [get_comment, h],
     fun w h => by simp [get_comment, h]⟩,
   fun http id => ⟨fun h => by simp [get_album, h],
     fun w h => by simp [get_album, h]⟩,
   fun http id => ⟨fun h => by simp [get_photo, h],
     fun w h => by simp [get_photo, h]⟩,
   fun http id => ⟨fun h => by simp [get_todo, h],
     fun w h => by simp [get_todo, h]⟩,
   fun http id => ⟨fun h => by simp [get_user, h],
     fun w h => by simp [get_user, h]⟩⟩

/-- Witness for `single_item_endpoints_policy`: against a transport failure,
`get_post` yields `Not found`; against a 200 exchange carrying one post
object, it yields the decoded entity. -/
theorem single_item_endpoints_witness :
    get_post (fun _ => envTransportFail) 1 = .error { message := "Not found" } ∧
    get_post (fun _ => envOk 200
        [.ok "\x7b\"id\":1,\"userId\":5,\"title\":\"t\",\"body\":\"b\"\x7d".data, .ok []]) 1 =
      .ok { id := 1, user_id := 5, title := "t", body := "b" } :=
  ⟨(single_item_endpoints_policy.2.1 (fun _ => envTransportFail) 1).1 rfl,
   (single_item_endpoints_policy.2.1 (fun _ => envOk 200
      [.ok "\x7b\"id\":1,\"userId\":5,\"title\":\"t\",\"body\":\"b\"\x7d".data, .ok []]) 1).2
    ⟨1, 5, "t", "b"⟩ rfl⟩

/-- C4: every plain list endpoint (`get_posts`, `get_comments`, `get_albums`,
`get_photos`, `get_todos`, `get_users`) returns the empty sequence on every
failure cause (first clause: any failing step, including a malformed or
mistyped JSON body, fails the fetch), making failure indistinguishable from
an empty query result; on success it returns the decoded entities. The
endpoints are total Lean functions, so no execution panics. -/
theorem list_endpoints_policy :
    (∀ {α : Type} (env : FetchEnv) (dec : List Char → Option α),
      env.methodOk = false ∨ env.schemeOk = false ∨ env.authorityOk = false ∨
      env.pathOk = false ∨ env.handleOk = false ∨ env.futureReadyOk = false ∨
      env.futureResultOk = false ∨ env.httpResultOk = false ∨ env.status ≠ 200 ∨
      env.consumeOk = false ∨ env.streamOk = false ∨ dec (drainBody env.reads) = none →
      fetch_json env dec = none) ∧
    (∀ (http : Http) (user_id : Nat),
      (fetch_json (http ("/posts?userId=" ++ toString user_id)) decodePostsBody = none →
        get_posts http user_id = []) ∧
      (∀ v, fetch_json (http ("/posts?userId=" ++ toString user_id)) decodePostsBody = some v →
        get_posts http user_id = v.map Post.fromSerde)) ∧
    (∀ (http : Http) (id post_id : Option Nat),
      (fetch_json (http (get_comments_path id post_id)) decodeCommentsBody = none →
        get_comments http id post_id = []) ∧
      (∀ v, fetch_json (http (get_comments_path id post_id)) decodeCommentsBody = some v →
        get_comments http id post_id = v.map Comment.fromSerde)) ∧
    (∀ (http : Http) (id user_id : Option Nat),
      (fetch_json (http (get_albums_path id user_id)) decodeAlbumsBody = none →
        get_albums http id user_id = []) ∧
      (∀ v, fetch_json (http (get_albums_path id user_id)) decodeAlbumsBody = some v →
        get_albums http id user_id = v.map Album.fromSerde)) ∧
    (∀ (http : Http) (id album_id : Option Nat),
      (fetch_json (http (get_photos_path id album_id)) decodePhotosBody = none →
        get_photos http id album_id = []) ∧
      (∀ v, fetch_json (http (get_photos_path id album_id)) decodePhotosBody = some v →
        get_photos http id album_id = v.map Photo.fromSerde)) ∧
    (∀ (http : Http) (id user_id : Option Nat),
      (fetch_json (http (get_todos_path id user_id)) decodeTodosBody = none →
        get_todos http id user_id = []) ∧
      (∀ v, fetch_json (http (get_todos_path id user_id)) decodeTodosBody = some v →
        get_todos http id user_id = v.map Todo.fromSerde)) ∧
    (∀ (http : Http) (id : Option Nat) (email : Option String),
      (fetch_json (http (get_users_path id email)) decodeUsersBody = none →
        get_users http id email = []) ∧
      (∀ v, fetch_json (http (get_users_path id email)) decodeUsersBody = some v →
        get_users http id email = v.map User.fromSerde)) :=
  ⟨fun env dec h => fetchJson_none_of_cause env dec h,
   fun http user_id => ⟨fun h => by simp [get_posts, h],
     fun v h => by simp [get_posts, h]⟩,
   fun http id post_id => ⟨fun h => by simp [get_comments, h],
     fun v h => by simp [get_comments, h]⟩,
   fun http id user_id => ⟨fun h => by simp [get_albums, h],
     fun v h => by simp [get_albums, h]⟩,
   fun http id album_id => ⟨fun h => by simp [get_photos, h],
     fun v h => by simp [get_photos, h]⟩,
   fun http id user_id => ⟨fun h => by simp [get_todos, h],
     fun v h => by simp [get_todos, h]⟩,
   fun http id email => ⟨fun h => by simp [get_users, h],
     fun v h => by simp [get_users, h]⟩⟩

/-- Witness for `list_endpoints_policy`: a body that is not a JSON array
yields the empty list from `get_todos`. -/
theorem list_endpoints_witness :
    get_todos (fun _ => envDecodeFail) none none = [] :=
  (list_endpoints_policy.2.2.2.2.2.1 (fun _ => envDecodeFail) none none).1 rfl

/-- C5: the relationship endpoints `get_post_comments id` and
`get_album_photos id` consult the transport at exactly the paths
`/posts/<id>/comments` and `/albums/<id>/photos`; on any fetch failure they
return `NotFoundError` (not an empty sequence), and on success the decoded
list of child entities. -/
theorem relationship_endpoints_policy :
    (∀ (h1 h2 : Http) (id : Nat),
      h1 ("/posts/" ++ toString id ++ "/comments") =
        h2 ("/posts/" ++ toString id ++ "/comments") →
      get_post_comments h1 id = get_post_comments h2 id) ∧
    (∀ (http : Http) (id : Nat),
      (fetch_json (http ("/posts/" ++ toString id ++ "/comments")) decodeCommentsBody = none →
        get_post_comments http id = .error { message := "Not found" }) ∧
      (∀ v, fetch_json (http ("/posts/" ++ toString id ++ "/comments"))
          decodeCommentsBody = some v →
        get_post_comments http id = .ok (v.map Comment.fromSerde))) ∧
    (∀ (h1 h2 : Http) (id : Nat),
      h1 ("/albums/" ++ toString id ++ "/photos") =
        h2 ("/albums/" ++ toString id ++ "/photos") →
      get_album_photos h1 id = get_album_photos h2 id) ∧
    (∀ (http : Http) (id : Nat),
      (fetch_json (http ("/albums/" ++ toString id ++ "/photos")) decodePhotosBody = none →
        get_album_photos http id = .error { message := "Not found" }) ∧
      (∀ v, fetch_json (http ("/albums/" ++ toString id ++ "/photos"))
          decodePhotosBody = some v →
        get_album_photos http id = .ok (v.map Photo.fromSerde))) :=
  ⟨by intro h1 h2 id he; simp only [get_post_comments, he],
   fun http id => ⟨fun h => by simp [get_post_comments, h],
     fun v h => by simp [get_post_comments, h]⟩,
   by intro h1 h2 id he; simp only [get_album_photos, he],
   fun http id => ⟨fun h => by simp [get_album_photos, h],
     fun v h => by simp [get_album_photos, h]⟩⟩

/-- Witness for `relationship_endpoints_policy`: a transport failure makes
`get_post_comments` return `Not found` rather than an empty list, and a 200
exchange with an empty JSON array yields the empty decoded list. -/
theorem relationship_endpoints_witness :
    get_post_comments (fun _ => envTransportFail) 1 = .error { message := "Not found" } ∧
    get_album_photos (fun _ => envOk 200 [.ok "[]".data, .ok []]) 2 = .ok [] :=
  ⟨(relationship_endpoints_policy.2.1 (fun _ => envTransportFail) 1).1 rfl,
   (relationship_endpoints_policy.2.2.2 (fun _ => envOk 200 [.ok "[]".data, .ok []]) 2).2
    [] rfl⟩

/-- C2: for every combination of the two optional filters of a list endpoint
(`get_comments`, `get_albums`, `get_photos`, `get_todos`, `get_users`), the
built path equals the base path when both filters are absent; otherwise it is
the base path followed by `?` and one `name=value` term per present filter,
joined with `&`, in declared order (`id` first, then the second filter), with
absent filters contributing nothing. -/
theorem query_builder_all_filter_combinations :
    (get_comments_path none none = "/comments") ∧
    (∀ i : Nat, get_comments_path (some i) none = "/comments?id=" ++ toString i) ∧
    (∀ p : Nat, get_comments_path none (some p) = "/comments?postId=" ++ toString p) ∧
    (∀ i p : Nat, get_comments_path (some i) (some p) =
      "/comments?id=" ++ toString i ++ "&postId=" ++ toString p) ∧
    (get_albums_path none none = "/albums") ∧
    (∀ i : Nat, get_albums_path (some i) none = "/albums?id=" ++ toString i) ∧
    (∀ u : Nat, get_albums_path none (some u) = "/albums?userId=" ++ toString u) ∧
    (∀ i u : Nat, get_albums_path (some i) (some u) =
      "/albums?id=" ++ toString i ++ "&userId=" ++ toString u) ∧
    (get_photos_path none none = "/photos") ∧
    (∀ i : Nat, get_photos_path (some i) none = "/photos?id=" ++ toString i) ∧
    (∀ a : Nat, get_photos_path none (some a) = "/photos?albumId=" ++ toString a) ∧
    (∀ i a : Nat, get_photos_path (some i) (some a) =
      "/photos?id=" ++ toString i ++ "&albumId=" ++ toString a) ∧
    (get_todos_path none none = "/todos") ∧
    (∀ i : Nat, get_todos_path (some i) none = "/todos?id=" ++ toString i) ∧
    (∀ u : Nat, get_todos_path none (some u) = "/todos?userId=" ++ toString u) ∧
    (∀ i u : Nat, get_todos_path (some i) (some u) =
      "/todos?id=" ++ toString i ++ "&userId=" ++ toString u) ∧
    (get_users_path none none = "/users") ∧
    (∀ i : Nat, get_users_path (some i) none = "/users?id=" ++ toString i) ∧
    (∀ e : String, get_users_path none (some e) = "/users?email=" ++ e) ∧
    (∀ (i : Nat) (e : String), get_users_path (some i) (some e) =
      "/users?id=" ++ toString i ++ "&email=" ++ e) :=
  ⟨by decide,
   by intro i; apply String.ext; simp [get_comments_path, joinAmp, String.data_append],
   by intro p; apply String.ext; simp [get_comments_path, joinAmp, String.data_append],
   by intro i p; apply String.ext; simp [get_comments_path, joinAmp, String.data_append],
   by decide,
   by intro i; apply String.ext; simp [get_albums_path, joinAmp, String.data_append],
   by intro u; apply String.ext; simp [get_albums_path, joinAmp, String.data_append],
   by intro i u; apply String.ext; simp [get_albums_path, joinAmp, String.data_append],
   by decide,
   by intro i; apply String.ext; simp [get_photos_path, joinAmp, String.data_append],
   by intro a; apply String.ext; simp [get_photos_path, joinAmp, String.data_append],
   by intro i a; apply String.ext; simp [get_photos_path, joinAmp, String.data_append],
   by decide,
   by intro i; apply String.ext; simp [get_todos_path, joinAmp, String.data_append],
   by intro u; apply String.ext; simp [get_todos_path, joinAmp, String.data_append],
   by intro i u; apply String.ext; simp [get_todos_path, joinAmp, String.data_append],
   by decide,
   by intro i; apply String.ext; simp [get_users_path, joinAmp, String.data_append],
   by intro e; apply String.ext; simp [get_users_path, joinAmp, String.data_append],
   by intro i e; apply String.ext; simp [get_users_path, joinAmp, String.data_append]⟩

/-- C6: for every well-formed wire object of every entity family, the
wire-to-domain mapping reproduces every field value exactly, with the
documented renames applied at the wire keys (`userId`, `postId`, `albumId`,
`thumbnailUrl`, `catchPhrase`) and nested-record reconstruction (Geo inside
Address inside User; Company inside User), no value coercion or default
substitution, and the mapping is injective on well-formed input. -/
theorem wire_to_domain_mapping_exact_and_injective :
    (∀ g : GeoSerde, (Geo.fromSerde g).lat = g.lat ∧ (Geo.fromSerde g).lng = g.lng) ∧
    (∀ a : AddressSerde, (Address.fromSerde a).street = a.street ∧
      (Address.fromSerde a).suite = a.suite ∧ (Address.fromSerde a).city = a.city ∧
      (Address.fromSerde a).zipcode = a.zipcode ∧
      (Address.fromSerde a).geo = Geo.fromSerde a.geo) ∧
    (∀ c : CompanySerde, (Company.fromSerde c).name = c.name ∧
      (Company.fromSerde c).catch_phrase = c.catch_phrase ∧
      (Company.fromSerde c).bs = c.bs) ∧
    (∀ p : PostSerde, (Post.fromSerde p).id = p.id ∧
      (Post.fromSerde p).user_id = p.user_id ∧ (Post.fromSerde p).title = p.title ∧
      (Post.fromSerde p).body = p.body) ∧
    (∀ u : UserSerde, (User.fromSerde u).id = u.id ∧ (User.fromSerde u).name = u.name ∧
      (User.fromSerde u).username = u.username ∧ (User.fromSerde u).email = u.email ∧
      (User.fromSerde u).phone = u.phone ∧ (User.fromSerde u).website = u.website ∧
      (User.fromSerde u).company = Company.fromSerde u.company ∧
      (User.fromSerde u).address = Address.fromSerde u.address) ∧
    (∀ c : CommentSerde, (Comment.fromSerde c).id = c.id ∧
      (Comment.fromSerde c).post_id = c.post_id ∧ (Comment.fromSerde c).name = c.name ∧
      (Comment.fromSerde c).email = c.email ∧ (Comment.fromSerde c).body = c.body) ∧
    (∀ a : AlbumSerde, (Album.fromSerde a).id = a.id ∧
      (Album.fromSerde a).user_id = a.user_id ∧ (Album.fromSerde a).title = a.title) ∧
    (∀ p : PhotoSerde, (Photo.fromSerde p).id = p.id ∧
      (Photo.fromSerde p).album_id = p.album_id ∧ (Photo.fromSerde p).title = p.title ∧
      (Photo.fromSerde p).url = p.url ∧
      (Photo.fromSerde p).thumbnail_url = p.thumbnail_url) ∧
    (∀ t : TodoSerde, (Todo.fromSerde t).id = t.id ∧
      (Todo.fromSerde t).user_id = t.user_id ∧ (Todo.fromSerde t).title = t.title ∧
      (Todo.fromSerde t).completed = t.completed) ∧
    (∀ a b : GeoSerde, Geo.fromSerde a = Geo.fromSerde b → a = b) ∧
    (∀ a b : AddressSerde, Address.fromSerde a = Address.fromSerde b → a = b) ∧
    (∀ a b : CompanySerde, Company.fromSerde a = Company.fromSerde b → a = b) ∧
    (∀ a b : PostSerde, Post.fromSerde a = Post.fromSerde b → a = b) ∧
    (∀ a b : UserSerde, User.fromSerde a = User.fromSerde b → a = b) ∧
    (∀ a b : CommentSerde, Comment.fromSerde a = Comment.fromSerde b → a = b) ∧
    (∀ a b : AlbumSerde, Album.fromSerde a = Album.fromSerde b → a = b) ∧
    (∀ a b : PhotoSerde, Photo.fromSerde a = Photo.fromSerde b → a = b) ∧
    (∀ a b : TodoSerde, Todo.fromSerde a = Todo.fromSerde b → a = b) ∧
    (∀ (i u : Nat) (t b : String), i < 2 ^ 64 → u < 2 ^ 64 →
      PostSerde.decode (.obj [("id", .num i), ("userId", .num u),
        ("title", .str t), ("body", .str b)]) = some ⟨i, u, t, b⟩) ∧
    (∀ (i p : Nat) (n e b : String), i < 2 ^ 64 → p < 2 ^ 64 →
      CommentSerde.decode (.obj [("id", .num i), ("postId", .num p),
        ("name", .str n), ("email", .str e), ("body", .str b)]) = some ⟨i, p, n, e, b⟩) ∧
    (∀ (i u : Nat) (t : String), i < 2 ^ 64 → u < 2 ^ 64 →
      AlbumSerde.decode (.obj [("id", .num i), ("userId", .num u),
        ("title", .str t)]) = some ⟨i, u, t⟩) ∧
    (∀ (i a : Nat) (t u th : String), i < 2 ^ 64 → a < 2 ^ 64 →
      PhotoSerde.decode (.obj [("id", .num i), ("albumId", .num a), ("title", .str t),
        ("url", .str u), ("thumbnailUrl", .str th)]) = some ⟨i, a, t, u, th⟩) ∧
    (∀ (i u : Nat) (t : String) (c : Bool), i < 2 ^ 64 → u < 2 ^ 64 →
      TodoSerde.decode (.obj [("id", .num i), ("userId", .num u), ("title", .str t),
        ("completed", .bool c)]) = some ⟨i, u, t, c⟩) ∧
    (∀ n cp bs : String,
      CompanySerde.decode (.obj [("name", .str n), ("catchPhrase", .str cp),
        ("bs", .str bs)]) = some ⟨n, cp, bs⟩) :=
  ⟨fun _ => ⟨rfl, rfl⟩,
   fun _ => ⟨rfl, rfl, rfl, rfl, rfl⟩,
   fun _ => ⟨rfl, rfl, rfl⟩,
   fun _ => ⟨rfl, rfl, rfl, rfl⟩,
   fun _ => ⟨rfl, rfl, rfl, rfl, rfl, rfl, rfl, rfl⟩,
   fun _ => ⟨rfl, rfl, rfl, rfl, rfl⟩,
   fun _ => ⟨rfl, rfl, rfl⟩,
   fun _ => ⟨rfl, rfl, rfl, rfl, rfl⟩,
   fun _ => ⟨rfl, rfl, rfl, rfl⟩,
   by intro a b h; cases a; cases b; simp_all [Geo.fromSerde],
   by intro a b h
      obtain ⟨_, _, _, _, ⟨_, _⟩⟩ := a
      obtain ⟨_, _, _, _, ⟨_, _⟩⟩ := b
      simp_all [Address.fromSerde, Geo.fromSerde],
   by intro a b h; cases a; cases b; simp_all [Company.fromSerde],
   by intro a b h; cases a; cases b; simp_all [Post.fromSerde],
   by intro a b h
      obtain ⟨_, _, _, _, _, _, ⟨_, _, _⟩, ⟨_, _, _, _, ⟨_, _⟩⟩⟩ := a
      obtain ⟨_, _, _, _, _, _, ⟨_, _, _⟩, ⟨_, _, _, _, ⟨_, _⟩⟩⟩ := b
      simp_all [User.fromSerde, Company.fromSerde, Address.fromSerde, Geo.fromSerde],
   by intro a b h; cases a; cases b; simp_all [Comment.fromSerde],
   by intro a b h; cases a; cases b; simp_all [Album.fromSerde],
   by intro a b h; cases a; cases b; simp_all [Photo.fromSerde],
   by intro a b h; cases a; cases b; simp_all [Todo.fromSerde],
   by intro i u t b hi hu
      norm_num at hi hu
      simp [PostSerde.decode, decodeFields, applyField, postFields, setOnce,
        decodeU64, decodeStr, List.find?, hi, hu],
   by intro i p n e b hi hp
      norm_num at hi hp
      simp [CommentSerde.decode, decodeFields, applyField, commentFields, setOnce,
        decodeU64, decodeStr, List.find?, hi, hp],
   by intro i u t hi hu
      norm_num at hi hu
      simp [AlbumSerde.decode, decodeFields, applyField, albumFields, setOnce,
        decodeU64, decodeStr, List.find?, hi, hu],
   by intro i a t u th hi ha
      norm_num at hi ha
      simp [PhotoSerde.decode, decodeFields, applyField, photoFields, setOnce,
        decodeU64, decodeStr, List.find?, hi, ha],
   by intro i u t c hi hu
      norm_num at hi hu
      simp [TodoSerde.decode, decodeFields, applyField, todoFields, setOnce,
        decodeU64, decodeStr, decodeBool, List.find?, hi, hu],
   by intro n cp bs
      simp [CompanySerde.decode, decodeFields, applyField, companyFields, setOnce,
        decodeStr, List.find?]⟩

/-- Witness for the hypothesis-bearing clauses of
`wire_to_domain_mapping_exact_and_injective`: injectivity and the
`userId`-rename decode clause applied at concrete wire values (the spec's
example `"userId": 3` giving `user_id == 3`). -/
theorem wire_to_domain_mapping_witness :
    PostSerde.mk 1 3 "t" "b" = PostSerde.mk 1 3 "t" "b" ∧
    PostSerde.decode (.obj [("id", .num 1), ("userId", .num 3),
      ("title", .str "t"), ("body", .str "b")]) = some ⟨1, 3, "t", "b"⟩ :=
  ⟨(wire_to_domain_mapping_exact_and_injective.2.2.2.2.2.2.2.2.2.2.2.2.1
      ⟨1, 3, "t", "b"⟩ ⟨1, 3, "t", "b"⟩ rfl),
   (wire_to_domain_mapping_exact_and_injective.2.2.2.2.2.2.2.2.2.2.2.2.2.2.2.2.2.2.1
      1 3 "t" "b" (by norm_num) (by norm_num))⟩

end Jsonplaceholder
